import Mathlib

/-!
Verification of the thermopy property evaluators against their specification.

The development shallowly embeds, over the real numbers:
* the NASA-9 piecewise polynomial compound evaluator and its reaction layer
  (`src/thermopy/nasa9polynomials.py`),
* the Burcat polynomial compound evaluator (`src/thermopy/burcat.py`),
* the IAPWS-IF97 water/steam evaluator (`src/thermopy/iapws.py`).

Python floats are modelled as real numbers, `raise` as `Except.error`, and
`x ** 0.5` / `x ** 0.25` as `Real.sqrt` / `Real.rpow`.  All coefficient
tables are transcribed verbatim from the source.
-/

set_option maxHeartbeats 1000000

noncomputable section

open scoped Classical

namespace Thermopy

/-- constants.py: `ideal_gas_constant = (8.314472, 'J mol^-1 K^-1', ...)`;
the evaluators read index 0. -/
def Rgas : ℝ := 8.314472

/-- constants.py: `ideal_gas_constant_massic_basis = (0.461526, ...)`. -/
def Rmassic : ℝ := 0.461526

namespace Nasa9

/-- One `T_range` element of a nasa9 XML compound: attributes `Tlow`,
`Thigh` and up to nine stored coefficients. -/
structure TRange where
  Tlow : ℝ
  Thigh : ℝ
  coefs : Fin 9 → ℝ

/-- The data of a nasa9 `Compound` that the evaluator methods read:
the identification strings used in error messages, and the ordered
list of temperature ranges from `findall('T_range')`. -/
structure Compound where
  iupacName : String
  inpName : String
  tRanges : List TRange

/-- The exception raised by `Compound._evaluate_temperature_interval`:
`Exception('Temperature out of range for ' + iupac_name + '/' + inp_name
+ ' with ' + str(T) + ' K')`.  The embedding keeps the pieces of the
message structurally, so the error provably identifies the compound and
the requested temperature. -/
inductive NasaError where
  | outOfRange (iupacName : String) (inpName : String) (T : ℝ)

/-- The loop of `_evaluate_temperature_interval`: the first `T_range`
with `Tlow <= T <= Thigh` wins. -/
def findTRange (T : ℝ) : List TRange → Option TRange
  | [] => none
  | r :: rs => if r.Tlow ≤ T ∧ T ≤ r.Thigh then some r else findTRange T rs

/-- `Compound._evaluate_temperature_interval` (nasa9polynomials.py:168-196):
returns the selected interval, or raises naming the compound and `T`. -/
def evaluate_temperature_interval (c : Compound) (T : ℝ) : Except NasaError TRange :=
  match findTRange T c.tRanges with
  | some r => Except.ok r
  | none => Except.error (NasaError.outOfRange c.iupacName c.inpName T)

/-- `Compound.heat_capacity` (nasa9polynomials.py:198-227):
sum of `T ** [-2,-1,0,1,2,3,4]` times `coefficients[0:7]`, then `* _R`. -/
def heat_capacity (c : Compound) (T : ℝ) : Except NasaError ℝ :=
  match evaluate_temperature_interval c T with
  | Except.error e => Except.error e
  | Except.ok r => Except.ok
      ((r.coefs 0 * T ^ (-2 : ℤ) + r.coefs 1 * T ^ (-1 : ℤ) + r.coefs 2 +
        r.coefs 3 * T + r.coefs 4 * T ^ 2 + r.coefs 5 * T ^ 3 +
        r.coefs 6 * T ^ 4) * Rgas)

/-- `Compound.enthalpy` (nasa9polynomials.py:229-264):
exponents `[-2,-1,0,1,2,3,4,-1]`, factors `[-1, log T, 1, 1/2, 1/3, 1/4, 1/5, 1]`
against `coefficients[0:8]`, summed, then `* _R * T`. -/
def enthalpy (c : Compound) (T : ℝ) : Except NasaError ℝ :=
  match evaluate_temperature_interval c T with
  | Except.error e => Except.error e
  | Except.ok r => Except.ok
      ((-(r.coefs 0) * T ^ (-2 : ℤ) + r.coefs 1 * Real.log T * T ^ (-1 : ℤ) +
        r.coefs 2 + r.coefs 3 * T / 2 + r.coefs 4 * T ^ 2 / 3 +
        r.coefs 5 * T ^ 3 / 4 + r.coefs 6 * T ^ 4 / 5 +
        r.coefs 7 * T ^ (-1 : ℤ)) * Rgas * T)

/-- `Compound.entropy` (nasa9polynomials.py:266-300):
exponents `[-2,-1,0,1,2,3,4,0,0]`, factors
`[-1/2, -1, log T, 1, 1/2, 1/3, 1/4, 0, 1]` against all nine coefficients,
summed, then `* _R`. -/
def entropy (c : Compound) (T : ℝ) : Except NasaError ℝ :=
  match evaluate_temperature_interval c T with
  | Except.error e => Except.error e
  | Except.ok r => Except.ok
      ((-(r.coefs 0) * T ^ (-2 : ℤ) / 2 - r.coefs 1 * T ^ (-1 : ℤ) +
        r.coefs 2 * Real.log T + r.coefs 3 * T + r.coefs 4 * T ^ 2 / 2 +
        r.coefs 5 * T ^ 3 / 3 + r.coefs 6 * T ^ 4 / 4 + r.coefs 8) * Rgas)

/-- `Compound.gibbs_energy` (nasa9polynomials.py:302-323):
`self.enthalpy(T) - T * self.entropy(T)`. -/
def gibbs_energy (c : Compound) (T : ℝ) : Except NasaError ℝ := do
  let h ← enthalpy c T
  let s ← entropy c T
  Except.ok (h - T * s)

/-- `CompoundIdealGas.heat_capacity_constant_v` (nasa9polynomials.py:386-413):
`self.heat_capacity(T) - _R`. -/
def heat_capacity_constant_v (c : Compound) (T : ℝ) : Except NasaError ℝ := do
  let cp ← heat_capacity c T
  Except.ok (cp - Rgas)

/-- `CompoundIdealGas.internal_energy` (nasa9polynomials.py:415-436):
`self.enthalpy(T) - _R * T`. -/
def internal_energy (c : Compound) (T : ℝ) : Except NasaError ℝ := do
  let h ← enthalpy c T
  Except.ok (h - Rgas * T)

/-- A nasa9 `Reaction` after construction: `self.T`, the compound tuples,
and the coefficient tuples already mapped through `abs`. -/
structure Reaction where
  T : ℝ
  reactants : List Compound
  products : List Compound
  rcoefs : List ℝ
  pcoefs : List ℝ

/-- `Reaction.__init__` (nasa9polynomials.py:679-729): stores `abs` of every
coefficient and raises when a coefficient list length differs from its
compound list length. -/
def mkReaction (T : ℝ) (reactants products : List Compound)
    (reactantsCoefficients productCoefficients : List ℝ) : Except String Reaction :=
  let rc := reactantsCoefficients.map (fun z => |z|)
  let pc := productCoefficients.map (fun z => |z|)
  if reactants.length ≠ rc.length ∨ products.length ≠ pc.length then
    Except.error "Number of reactants or products is different from the number of coefficients given"
  else
    Except.ok ⟨T, reactants, products, rc, pc⟩

/-- One accumulation loop of `Reaction.enthalpy_reaction`:
`for (coefficient, compound) in zip(coefs, compounds): acc += coefficient *
compound.enthalpy(self.T)`; an exception in any `enthalpy` call propagates. -/
def sumWeightedEnthalpy (T : ℝ) : List (ℝ × Compound) → Except NasaError ℝ
  | [] => Except.ok 0
  | (coef, comp) :: rest => do
    let h ← enthalpy comp T
    let s ← sumWeightedEnthalpy T rest
    Except.ok (coef * h + s)

/-- Accumulation loop over `entropy`, as in `Reaction.entropy_reaction`. -/
def sumWeightedEntropy (T : ℝ) : List (ℝ × Compound) → Except NasaError ℝ
  | [] => Except.ok 0
  | (coef, comp) :: rest => do
    let s0 ← entropy comp T
    let s ← sumWeightedEntropy T rest
    Except.ok (coef * s0 + s)

/-- Accumulation loop over `gibbs_energy`, as in
`Reaction.gibbs_energy_reaction`. -/
def sumWeightedGibbs (T : ℝ) : List (ℝ × Compound) → Except NasaError ℝ
  | [] => Except.ok 0
  | (coef, comp) :: rest => do
    let g0 ← gibbs_energy comp T
    let s ← sumWeightedGibbs T rest
    Except.ok (coef * g0 + s)

/-- `Reaction.enthalpy_reaction` (nasa9polynomials.py:731-773).  Note that
BOTH loops of the source zip with `self._rcoefs`:
`for (coefficient, compound) in zip(self._rcoefs, self._products)`;
the products are weighted with the reactant coefficient list. -/
def enthalpy_reaction (rx : Reaction) : Except NasaError ℝ := do
  let hr ← sumWeightedEnthalpy rx.T (rx.rcoefs.zip rx.reactants)
  let hp ← sumWeightedEnthalpy rx.T (rx.rcoefs.zip rx.products)
  Except.ok (hp - hr)

/-- `Reaction.entropy_reaction` (nasa9polynomials.py:775-817); the product
loop again zips `self._rcoefs` with `self._products`. -/
def entropy_reaction (rx : Reaction) : Except NasaError ℝ := do
  let sr ← sumWeightedEntropy rx.T (rx.rcoefs.zip rx.reactants)
  let sp ← sumWeightedEntropy rx.T (rx.rcoefs.zip rx.products)
  Except.ok (sp - sr)

/-- `Reaction.gibbs_energy_reaction` (nasa9polynomials.py:819-859); the
product loop again zips `self._rcoefs` with `self._products`. -/
def gibbs_energy_reaction (rx : Reaction) : Except NasaError ℝ := do
  let gr ← sumWeightedGibbs rx.T (rx.rcoefs.zip rx.reactants)
  let gp ← sumWeightedGibbs rx.T (rx.rcoefs.zip rx.products)
  Except.ok (gp - gr)

/-- `Reaction.equilibrium_constant` (nasa9polynomials.py:861-901):
`np.exp(-1 * self.gibbs_energy_reaction(self.T) / (_R * self.T))`. -/
def equilibrium_constant (rx : Reaction) : Except NasaError ℝ := do
  let g ← gibbs_energy_reaction rx
  Except.ok (Real.exp (-1 * g / (Rgas * rx.T)))

/-- The reaction enthalpy as the spec (section 4.3) words it:
the product sum is weighted by the PRODUCT coefficient list.  This is the
refinement reference the code translation is compared against. -/
def enthalpy_reaction_specSum (rx : Reaction) : Except NasaError ℝ := do
  let hr ← sumWeightedEnthalpy rx.T (rx.rcoefs.zip rx.reactants)
  let hp ← sumWeightedEnthalpy rx.T (rx.pcoefs.zip rx.products)
  Except.ok (hp - hr)

/-- Concrete compound with one interval and all coefficients zero:
its enthalpy at any in-range temperature is `0`. -/
def cmpdZero : Compound := ⟨"zeroA", "zeroA", [⟨1 / 2, 2, fun _ => 0⟩]⟩

/-- Concrete compound with one interval whose only nonzero coefficient is
`a2 = 1`: its enthalpy at `T = 1` is `Rgas`. -/
def cmpdConst : Compound := ⟨"constB", "constB", [⟨1 / 2, 2, fun i => if i = 2 then 1 else 0⟩]⟩

/-- The reaction `2 cmpdZero -> 3 cmpdConst` at `T = 1` (coefficient lists
`[2]` and `[3]` already positive, lengths match). -/
def rxBug : Reaction := ⟨1, [cmpdZero], [cmpdConst], [2], [3]⟩

/-- A result of `ElementTree.Element.find` as Python sees it when used as a
value: either an `Element` (carrying its tag and optional text) or `None`. -/
inductive PyFindResult where
  | element (tag : String) (textVal : Option String)
  | noneObj

/-- `Element == str` in Python: `xml.etree.ElementTree.Element` defines no
`__eq__` against `str`, and `None == str` is `False`, so the comparison is
`False` whenever the left side is not itself a string; the text of the
element is never consulted. -/
def pyEqStr : PyFindResult → String → Bool
  | PyFindResult.element _ _, _ => false
  | PyFindResult.noneObj, _ => false

/-- The nasa9 XML record of one specie, as far as `Database.set_compound`
inspects it: whether a `condensed` child exists and what its text is. -/
structure XmlSpecie where
  condensedText : Option String

/-- `specie.find('condensed')`: the child `Element` when present,
`None` otherwise. -/
def xmlFindCondensed (s : XmlSpecie) : PyFindResult :=
  match s.condensedText with
  | some t => PyFindResult.element "condensed" (some t)
  | none => PyFindResult.noneObj

/-- The two classes `Database.set_compound` can instantiate. -/
inductive CompoundClass where
  | condensed
  | idealGas

/-- The class dispatch of `Database.set_compound` (nasa9polynomials.py:623-634):
`if result[0][2].find('condensed') == 'True': return Compound(...)
else: return CompoundIdealGas(...)`. -/
def set_compound_class (s : XmlSpecie) : CompoundClass :=
  if pyEqStr (xmlFindCondensed s) "True" = true then CompoundClass.condensed
  else CompoundClass.idealGas

end Nasa9

namespace Burcat

/-- The data of a burcat `Compound` read by its property methods. -/
structure Compound where
  formula : String
  TLimitLow : ℝ
  TLimitHigh : ℝ
  lowCoefs : Fin 7 → ℝ
  highCoefs : Fin 7 → ℝ
  hFormation : ℝ

/-- `Compound.heat_capacity` (burcat.py:78-88): dot of `[1, T, T^2, T^3, T^4]`
with the first five low/high coefficients times `_R`; out of range raises
`ValueError("Temperature out of range")`, a message carrying no compound or
temperature information. -/
def heat_capacity (c : Compound) (T : ℝ) : Except String ℝ :=
  if c.TLimitLow ≤ T ∧ T ≤ 1000 then
    Except.ok ((c.lowCoefs 0 + c.lowCoefs 1 * T + c.lowCoefs 2 * T ^ 2 +
      c.lowCoefs 3 * T ^ 3 + c.lowCoefs 4 * T ^ 4) * Rgas)
  else if 1000 < T ∧ T ≤ c.TLimitHigh then
    Except.ok ((c.highCoefs 0 + c.highCoefs 1 * T + c.highCoefs 2 * T ^ 2 +
      c.highCoefs 3 * T ^ 3 + c.highCoefs 4 * T ^ 4) * Rgas)
  else
    Except.error "Temperature out of range"

/-- `Compound.enthalpy` (burcat.py:97-110): dot of
`[1, T/2, T^2/3, T^3/4, T^4/5, 1/T]` with the first six coefficients times
`_R * T`, then minus `h_formation`. -/
def enthalpy (c : Compound) (T : ℝ) : Except String ℝ :=
  if c.TLimitLow ≤ T ∧ T ≤ 1000 then
    Except.ok ((c.lowCoefs 0 + c.lowCoefs 1 * T / 2 + c.lowCoefs 2 * T ^ 2 / 3 +
      c.lowCoefs 3 * T ^ 3 / 4 + c.lowCoefs 4 * T ^ 4 / 5 + c.lowCoefs 5 / T) *
      Rgas * T - c.hFormation)
  else if 1000 < T ∧ T ≤ c.TLimitHigh then
    Except.ok ((c.highCoefs 0 + c.highCoefs 1 * T / 2 + c.highCoefs 2 * T ^ 2 / 3 +
      c.highCoefs 3 * T ^ 3 / 4 + c.highCoefs 4 * T ^ 4 / 5 + c.highCoefs 5 / T) *
      Rgas * T - c.hFormation)
  else
    Except.error "Temperature out of range"

/-- `Compound.entropy` (burcat.py:137-149): dot of
`[log T, T, T^2/2, T^3/3, T^4/4, 0, 1]` with all seven coefficients
times `_R`. -/
def entropy (c : Compound) (T : ℝ) : Except String ℝ :=
  if c.TLimitLow ≤ T ∧ T ≤ 1000 then
    Except.ok ((c.lowCoefs 0 * Real.log T + c.lowCoefs 1 * T + c.lowCoefs 2 * T ^ 2 / 2 +
      c.lowCoefs 3 * T ^ 3 / 3 + c.lowCoefs 4 * T ^ 4 / 4 + c.lowCoefs 6) * Rgas)
  else if 1000 < T ∧ T ≤ c.TLimitHigh then
    Except.ok ((c.highCoefs 0 * Real.log T + c.highCoefs 1 * T + c.highCoefs 2 * T ^ 2 / 2 +
      c.highCoefs 3 * T ^ 3 / 3 + c.highCoefs 4 * T ^ 4 / 4 + c.highCoefs 6) * Rgas)
  else
    Except.error "Temperature out of range"

/-- `Compound.gibbs_energy` (burcat.py:151-159): guarded by
`T_limit_low <= T < T_limit_high`, then `enthalpy(T) - entropy(T) * T`. -/
def gibbs_energy (c : Compound) (T : ℝ) : Except String ℝ :=
  if c.TLimitLow ≤ T ∧ T < c.TLimitHigh then do
    let h ← enthalpy c T
    let s ← entropy c T
    Except.ok (h - s * T)
  else
    Except.error "Temperature out of range"

/-- Concrete burcat compound (limits 200 K to 3000 K). -/
def bcA : Compound := ⟨"H2", 200, 3000, fun _ => 1, fun _ => 1, 0⟩

/-- A different concrete burcat compound (limits 300 K to 5000 K). -/
def bcB : Compound := ⟨"O2", 300, 5000, fun _ => 2, fun _ => 2, 0⟩

end Burcat

namespace Nasa9

theorem findTRange_eq_none (T : ℝ) (l : List TRange)
    (h : ∀ r ∈ l, ¬ (r.Tlow ≤ T ∧ T ≤ r.Thigh)) : findTRange T l = none := by
  induction l with
  | nil => rfl
  | cons r rs ih =>
    rw [findTRange, if_neg (h r (List.mem_cons_self r rs))]
    exact ih fun r' hr' => h r' (List.mem_cons_of_mem r hr')

theorem findTRange_sound (T : ℝ) (l : List TRange) (r : TRange)
    (h : findTRange T l = some r) : r ∈ l ∧ r.Tlow ≤ T ∧ T ≤ r.Thigh := by
  induction l with
  | nil => simp [findTRange] at h
  | cons a rs ih =>
    by_cases hc : a.Tlow ≤ T ∧ T ≤ a.Thigh
    · rw [findTRange, if_pos hc] at h
      injection h with h
      subst h
      exact ⟨List.mem_cons_self a rs, hc.1, hc.2⟩
    · rw [findTRange, if_neg hc] at h
      rcases ih h with ⟨h1, h2⟩
      exact ⟨List.mem_cons_of_mem a h1, h2⟩

theorem findTRange_isSome (T : ℝ) (l : List TRange) (r : TRange)
    (hmem : r ∈ l) (hlo : r.Tlow ≤ T) (hhi : T ≤ r.Thigh) :
    ∃ r', findTRange T l = some r' := by
  induction l with
  | nil => cases hmem
  | cons a rs ih =>
    by_cases hc : a.Tlow ≤ T ∧ T ≤ a.Thigh
    · exact ⟨a, by rw [findTRange, if_pos hc]⟩
    · rcases List.mem_cons.1 hmem with h | h
      · exact absurd ⟨h ▸ hlo, h ▸ hhi⟩ hc
      · rcases ih h with ⟨r', hr'⟩
        exact ⟨r', by rw [findTRange, if_neg hc]; exact hr'⟩

/-- Claim C3: for every compound and every temperature `T` lying in one of the
compound's temperature intervals (selection by inclusive containment
`Tlow <= T <= Thigh`), `heat_capacity` returns
`R * (a0*T^-2 + a1*T^-1 + a2 + a3*T + a4*T^2 + a5*T^3 + a6*T^4)` where
`a0..a6` are the selected interval's coefficients and `R = 8.314472` is the
final scaling factor. -/
theorem C3_heat_capacity_polynomial (c : Compound) (T : ℝ) (r : TRange)
    (hmem : r ∈ c.tRanges) (hlo : r.Tlow ≤ T) (hhi : T ≤ r.Thigh) :
    ∃ r' : TRange, r' ∈ c.tRanges ∧ r'.Tlow ≤ T ∧ T ≤ r'.Thigh ∧
      evaluate_temperature_interval c T = Except.ok r' ∧
      heat_capacity c T = Except.ok
        ((r'.coefs 0 * T ^ (-2 : ℤ) + r'.coefs 1 * T ^ (-1 : ℤ) + r'.coefs 2 +
          r'.coefs 3 * T + r'.coefs 4 * T ^ 2 + r'.coefs 5 * T ^ 3 +
          r'.coefs 6 * T ^ 4) * Rgas) := by
  rcases findTRange_isSome T c.tRanges r hmem hlo hhi with ⟨r', hr'⟩
  rcases findTRange_sound T c.tRanges r' hr' with ⟨h1, h2, h3⟩
  refine ⟨r', h1, h2, h3, ?_, ?_⟩
  · unfold evaluate_temperature_interval
    rw [hr']
  · unfold heat_capacity evaluate_temperature_interval
    rw [hr']

/-- Single-interval compound used to instantiate C3. -/
def c3wR : TRange := ⟨200, 1000, fun _ => 1⟩

/-- Compound holding `c3wR` as its only interval. -/
def c3w : Compound := ⟨"witnessW", "witnessW", [c3wR]⟩

theorem C3_heat_capacity_polynomial_witness :
    ∃ r' : TRange, r' ∈ c3w.tRanges ∧ r'.Tlow ≤ (300 : ℝ) ∧ (300 : ℝ) ≤ r'.Thigh ∧
      evaluate_temperature_interval c3w 300 = Except.ok r' ∧
      heat_capacity c3w 300 = Except.ok
        ((r'.coefs 0 * (300 : ℝ) ^ (-2 : ℤ) + r'.coefs 1 * (300 : ℝ) ^ (-1 : ℤ) + r'.coefs 2 +
          r'.coefs 3 * 300 + r'.coefs 4 * (300 : ℝ) ^ 2 + r'.coefs 5 * (300 : ℝ) ^ 3 +
          r'.coefs 6 * (300 : ℝ) ^ 4) * Rgas) :=
  C3_heat_capacity_polynomial c3w 300 c3wR (by simp [c3w])
    (by norm_num [c3wR]) (by norm_num [c3wR])

/-- Claim C1 (code bug witness): in the nasa9 reaction layer the PRODUCT loop
is weighted with the REACTANT coefficient list, so for the reaction
`2 cmpdZero -> 3 cmpdConst` at `T = 1` (species enthalpies `0` and `Rgas`)
the code returns `2 * Rgas` where the spec formula
`sum coef_product * enthalpy(product) - sum coef_reactant * enthalpy(reactant)`
gives `3 * Rgas`, and the two values differ. -/
theorem C1_reaction_product_coefficient_bug :
    enthalpy_reaction rxBug = Except.ok (2 * Rgas) ∧
    enthalpy_reaction_specSum rxBug = Except.ok (3 * Rgas) ∧
    (2 * Rgas : ℝ) ≠ 3 * Rgas := by
  have hA : enthalpy cmpdZero 1 = Except.ok 0 := by
    unfold enthalpy evaluate_temperature_interval cmpdZero findTRange
    rw [if_pos (by norm_num)]
    norm_num
  have hB : enthalpy cmpdConst 1 = Except.ok Rgas := by
    unfold enthalpy evaluate_temperature_interval cmpdConst findTRange
    rw [if_pos (by norm_num)]
    simp [Real.log_one]
  refine ⟨?_, ?_, by norm_num [Rgas]⟩
  · unfold enthalpy_reaction rxBug
    simp only [List.zip_cons_cons, List.zip_nil_right, sumWeightedEnthalpy, hA, hB]
    simp only [Except.bind, bind]
    norm_num
  · unfold enthalpy_reaction_specSum rxBug
    simp only [List.zip_cons_cons, List.zip_nil_right, sumWeightedEnthalpy, hA, hB]
    simp only [Except.bind, bind]
    norm_num

/-- Claim C7 counterexample: two DIFFERENT burcat compounds queried at two
DIFFERENT out-of-range temperatures raise literally the same error value
`ValueError("Temperature out of range")`: the burcat domain error identifies
neither the compound nor the requested temperature. -/
theorem C7_error_not_identifying_counterexample :
    Burcat.heat_capacity Burcat.bcA 5000 = Except.error "Temperature out of range" ∧
    Burcat.heat_capacity Burcat.bcB 6000 = Except.error "Temperature out of range" ∧
    Burcat.heat_capacity Burcat.bcA 5000 = Burcat.heat_capacity Burcat.bcB 6000 ∧
    Burcat.bcA.formula ≠ Burcat.bcB.formula := by
  have h1 : Burcat.heat_capacity Burcat.bcA 5000 = Except.error "Temperature out of range" := by
    unfold Burcat.heat_capacity Burcat.bcA
    rw [if_neg (by norm_num), if_neg (by norm_num)]
  have h2 : Burcat.heat_capacity Burcat.bcB 6000 = Except.error "Temperature out of range" := by
    unfold Burcat.heat_capacity Burcat.bcB
    rw [if_neg (by norm_num), if_neg (by norm_num)]
  exact ⟨h1, h2, h1.trans h2.symm, by simp [Burcat.bcA, Burcat.bcB]⟩

/-- Claim C7 (amended): for a temperature outside all intervals every nasa9
property query (heat_capacity, enthalpy, entropy, gibbs_energy) raises a
domain error that carries the compound identification and the requested `T`,
and every burcat property query raises the constant
`ValueError("Temperature out of range")` (which carries neither); none of
them returns a number. -/
theorem C7_out_of_range_rejection (c : Compound) (T : ℝ)
    (h : ∀ r ∈ c.tRanges, ¬ (r.Tlow ≤ T ∧ T ≤ r.Thigh))
    (bc : Burcat.Compound) (T' : ℝ)
    (h1 : ¬ (bc.TLimitLow ≤ T' ∧ T' ≤ 1000))
    (h2 : ¬ (1000 < T' ∧ T' ≤ bc.TLimitHigh)) :
    heat_capacity c T = Except.error (NasaError.outOfRange c.iupacName c.inpName T) ∧
    enthalpy c T = Except.error (NasaError.outOfRange c.iupacName c.inpName T) ∧
    entropy c T = Except.error (NasaError.outOfRange c.iupacName c.inpName T) ∧
    gibbs_energy c T = Except.error (NasaError.outOfRange c.iupacName c.inpName T) ∧
    Burcat.heat_capacity bc T' = Except.error "Temperature out of range" ∧
    Burcat.enthalpy bc T' = Except.error "Temperature out of range" ∧
    Burcat.entropy bc T' = Except.error "Temperature out of range" ∧
    Burcat.gibbs_energy bc T' = Except.error "Temperature out of range" := by
  have hn : findTRange T c.tRanges = none := findTRange_eq_none T c.tRanges h
  have he : evaluate_temperature_interval c T =
      Except.error (NasaError.outOfRange c.iupacName c.inpName T) := by
    unfold evaluate_temperature_interval
    rw [hn]
  have hh : enthalpy c T = Except.error (NasaError.outOfRange c.iupacName c.inpName T) := by
    unfold enthalpy
    rw [he]
  have hs : entropy c T = Except.error (NasaError.outOfRange c.iupacName c.inpName T) := by
    unfold entropy
    rw [he]
  have hgb : ¬ (bc.TLimitLow ≤ T' ∧ T' < bc.TLimitHigh) := by
    rintro ⟨ha, hb⟩
    rcases not_and_or.1 h1 with hlo | hhi
    · exact hlo ha
    · exact (not_and_or.1 h2).elim (fun hx => hx (lt_of_not_le hhi)) (fun hx => hx hb.le)
  refine ⟨?_, hh, hs, ?_, ?_, ?_, ?_, ?_⟩
  · unfold heat_capacity
    rw [he]
  · unfold gibbs_energy
    rw [hh]
    rfl
  · unfold Burcat.heat_capacity
    rw [if_neg h1, if_neg h2]
  · unfold Burcat.enthalpy
    rw [if_neg h1, if_neg h2]
  · unfold Burcat.entropy
    rw [if_neg h1, if_neg h2]
  · unfold Burcat.gibbs_energy
    rw [if_neg hgb]

theorem C7_out_of_range_rejection_witness :
    heat_capacity c3w 5000 =
      Except.error (NasaError.outOfRange c3w.iupacName c3w.inpName 5000) ∧
    enthalpy c3w 5000 =
      Except.error (NasaError.outOfRange c3w.iupacName c3w.inpName 5000) ∧
    entropy c3w 5000 =
      Except.error (NasaError.outOfRange c3w.iupacName c3w.inpName 5000) ∧
    gibbs_energy c3w 5000 =
      Except.error (NasaError.outOfRange c3w.iupacName c3w.inpName 5000) ∧
    Burcat.heat_capacity Burcat.bcA 100 = Except.error "Temperature out of range" ∧
    Burcat.enthalpy Burcat.bcA 100 = Except.error "Temperature out of range" ∧
    Burcat.entropy Burcat.bcA 100 = Except.error "Temperature out of range" ∧
    Burcat.gibbs_energy Burcat.bcA 100 = Except.error "Temperature out of range" :=
  C7_out_of_range_rejection c3w 5000
    (by
      intro r hr
      simp only [c3w, List.mem_singleton] at hr
      subst hr
      norm_num [c3wR])
    Burcat.bcA 100 (by norm_num [Burcat.bcA]) (by norm_num [Burcat.bcA])

/-- Claim C9: the Python comparison `find('condensed') == 'True'` compares an
XML Element (or None) with a string and is always False, so
`Database.set_compound` instantiates `CompoundIdealGas` for every resolved
entry — also when the record says condensed is True — and the ideal-gas-only
methods `internal_energy` and `heat_capacity_constant_v` compute
`enthalpy - R*T` and `heat_capacity - R` on every returned compound. -/
theorem C9_set_compound_always_ideal_gas :
    (∀ fr : PyFindResult, ∀ s : String, pyEqStr fr s = false) ∧
    (∀ s : XmlSpecie, set_compound_class s = CompoundClass.idealGas) ∧
    set_compound_class ⟨some "True"⟩ = CompoundClass.idealGas ∧
    (∀ c T, internal_energy c T = (enthalpy c T).map (fun h => h - Rgas * T)) ∧
    (∀ c T, heat_capacity_constant_v c T = (heat_capacity c T).map (fun cp => cp - Rgas)) := by
  have hpe : ∀ fr : PyFindResult, ∀ s : String, pyEqStr fr s = false := by
    intro fr s
    cases fr <;> rfl
  have hcl : ∀ s : XmlSpecie, set_compound_class s = CompoundClass.idealGas := by
    intro s
    unfold set_compound_class
    rw [hpe]
    simp
  refine ⟨hpe, hcl, hcl _, ?_, ?_⟩
  · intro c T
    unfold internal_energy
    cases h : enthalpy c T <;> simp [h, Except.map, Except.bind, bind]
  · intro c T
    unfold heat_capacity_constant_v
    cases h : heat_capacity c T <;> simp [h, Except.map, Except.bind, bind]

end Nasa9

namespace Iapws

/-- Critical point temperature `Tc = 647.096` K (iapws.py:53). -/
def Tcrit : ℝ := 647.096

/-- Critical point pressure `pc = Pressure(22.064).unit('MPa')`, i.e. the
value 22.064e6 stored in Pa (iapws.py:54). -/
def pcrit : ℝ := 22.064e6

/-- Critical point density `rhoc = 322` kg/m3 (iapws.py:55). -/
def rhocrit : ℝ := 322

/-- Triple point temperature `Tt = 273.16` K (iapws.py:56). -/
def Ttriple : ℝ := 273.16

/-- Triple point pressure `pt = 611.657` Pa (iapws.py:57). -/
def ptriple : ℝ := 611.657

/-- `Water.__init__` (iapws.py:30-49): eager validation of `(p, T)` and
selection of the gas constant by the `massic_basis` flag. -/
structure WaterState where
  p : ℝ
  T : ℝ
  R : ℝ

/-- The constructor checks, in source order: temperature window, pressure
window, and the high-temperature pressure cutout; each violation raises
`ValueError`. -/
def waterInit (p T : ℝ) (massic : Bool) : Except String WaterState :=
  if T < 273.15 ∨ T > 2273.15 then
    Except.error "Temperature out of range (273.15 - 2273.15K)"
  else if p > 100e6 ∨ p < 0 then
    Except.error "Pressure out of range (0 - 100 MPa)"
  else if T > 1073.15 ∧ p > 50e6 then
    Except.error "p or T value out of range"
  else
    Except.ok ⟨p, T, if massic then Rmassic else Rgas⟩

/-- Saturation coefficient `ni[0]` of table 34 (iapws.py:72-81). -/
def satn0 : ℝ := 1167.0521452767

/-- Saturation coefficient `ni[1]`. -/
def satn1 : ℝ := -724213.16703206

/-- Saturation coefficient `ni[2]`. -/
def satn2 : ℝ := -17.073846940092

/-- Saturation coefficient `ni[3]`. -/
def satn3 : ℝ := 12020.82470247

/-- Saturation coefficient `ni[4]`. -/
def satn4 : ℝ := -3232555.0322333

/-- Saturation coefficient `ni[5]`. -/
def satn5 : ℝ := 14.91510861353

/-- Saturation coefficient `ni[6]`. -/
def satn6 : ℝ := -4823.2657361591

/-- Saturation coefficient `ni[7]`. -/
def satn7 : ℝ := 405113.40542057

/-- Saturation coefficient `ni[8]`. -/
def satn8 : ℝ := -0.23855557567849

/-- Saturation coefficient `ni[9]`. -/
def satn9 : ℝ := 650.17534844798

/-- `A = 1 * v ** 2 + ni[0] * v + ni[1]` in `pressure_saturation`. -/
def satA (v : ℝ) : ℝ := 1 * v ^ 2 + satn0 * v + satn1

/-- `B = ni[2] * v ** 2 + ni[3] * v + ni[4]` in `pressure_saturation`. -/
def satB (v : ℝ) : ℝ := satn2 * v ^ 2 + satn3 * v + satn4

/-- `C = ni[5] * v ** 2 + ni[6] * v + ni[7]` in `pressure_saturation`. -/
def satC (v : ℝ) : ℝ := satn5 * v ^ 2 + satn6 * v + satn7

/-- `v = T + ni[8] / (T - ni[9])` in `pressure_saturation`. -/
def satV (T : ℝ) : ℝ := T + satn8 / (T - satn9)

/-- `2 * C / (-B + (B ** 2 - 4 * A * C) ** 0.5)`: the quantity whose fourth
power is the saturation pressure in MPa. -/
def satBeta (T : ℝ) : ℝ :=
  2 * satC (satV T) /
    (-satB (satV T) + Real.sqrt (satB (satV T) ^ 2 - 4 * satA (satV T) * satC (satV T)))

/-- `Water.pressure_saturation` (iapws.py:93-120): guard
`T < 273.15 or T > self.Tc`, then the Wagner-type backward equation;
`Pressure(x).unit('MPa')` multiplies by 1e6, so the result is in Pa. -/
def pressure_saturation (T : ℝ) : Except String ℝ :=
  if T < 273.15 ∨ T > Tcrit then Except.error "Temperature out of range."
  else Except.ok (satBeta T ^ 4 * 1e6)

/-- `E = 1 * beta ** 2 + ni[2] * beta + ni[5]` in `temperature_saturation`. -/
def satE (b : ℝ) : ℝ := 1 * b ^ 2 + satn2 * b + satn5

/-- `F = ni[0] * beta ** 2 + ni[3] * beta + ni[6]`. -/
def satF (b : ℝ) : ℝ := satn0 * b ^ 2 + satn3 * b + satn6

/-- `G = ni[1] * beta ** 2 + ni[4] * beta + ni[7]`. -/
def satG (b : ℝ) : ℝ := satn1 * b ^ 2 + satn4 * b + satn7

/-- `D = 2 * G / (-F - (F**2 - 4 * E * G)**0.5)`. -/
def satD (b : ℝ) : ℝ :=
  2 * satG b / (-satF b - Real.sqrt (satF b ^ 2 - 4 * satE b * satG b))

/-- The return value of `temperature_saturation` as a function of
`beta = p_MPa ** 0.25`:
`(ni[9] + D - ((ni[9] + D)**2 - 4*(ni[8] + ni[9]*D))**0.5) * 0.5`. -/
def tsatFromBeta (b : ℝ) : ℝ :=
  (satn9 + satD b - Real.sqrt ((satn9 + satD b) ^ 2 - 4 * (satn8 + satn9 * satD b))) * 0.5

/-- `Water.temperature_saturation` (iapws.py:60-91).  The pressure is first
converted to MPa (`p = Pressure(p).MPa`); the guard then compares that MPa
number against `Pressure(611.213).unit('Pa').MPa` on the left but against
`self.pc` — a value stored in Pa — on the right. -/
def temperature_saturation (p : ℝ) : Except String ℝ :=
  if p / 1e6 < 611.213 / 1e6 ∨ p / 1e6 > pcrit then
    Except.error "Pressure out of range."
  else
    Except.ok (tsatFromBeta ((p / 1e6) ^ ((1 : ℝ) / 4)))

/-- Boundary 2/3 coefficient `ni[0]` (iapws.py:128-132). -/
def b23n0 : ℝ := 348.05185628969

/-- Boundary 2/3 coefficient `ni[1]`. -/
def b23n1 : ℝ := -1.1671859879975

/-- Boundary 2/3 coefficient `ni[2]`. -/
def b23n2 : ℝ := 0.0010192970039326

/-- `pressure23 = Pressure(ni[0] + ni[1]*theta + ni[2]*theta**2).unit('MPa')`
with `theta = self.T`; the `unit('MPa')` call multiplies by 1e6. -/
def pressure23 (T : ℝ) : ℝ := (b23n0 + b23n1 * T + b23n2 * T ^ 2) * 1e6

/-- Propagation of the exception possibly raised by the
`temperature_saturation` call inside `_is_in_region`. -/
def tsatCase (e : Except String ℝ) (f : ℝ → Except String ℕ) : Except String ℕ :=
  match e with
  | Except.error msg => Except.error msg
  | Except.ok ts => f ts

theorem tsatCase_ok (ts : ℝ) (f : ℝ → Except String ℕ) :
    tsatCase (Except.ok ts) f = f ts := rfl

theorem tsatCase_error (msg : String) (f : ℝ → Except String ℕ) :
    tsatCase (Except.error msg) f = Except.error msg := rfl

/-- `Water._is_in_region` (iapws.py:122-155): exact triple-point check, then
the saturation-temperature comparison band, the region 2/3 boundary band,
and the region 5 band, in source order. -/
def is_in_region (p T : ℝ) : Except String ℕ :=
  if T = Ttriple ∧ p = ptriple then Except.ok 1
  else if 273.15 ≤ T ∧ T ≤ 623.15 then
    tsatCase (temperature_saturation p) fun ts =>
      if T < ts then Except.ok 1 else Except.ok 2
  else if 623.15 < T ∧ T ≤ 1073.15 then
    if p > pressure23 T then Except.ok 3 else Except.ok 2
  else if 1073.15 ≤ T ∧ T ≤ 2273.15 then Except.ok 5
  else Except.error "Cannot assign region to the parameters p, T given."

/-- Region 1 coefficient triples `(Ii, Ji, ni)` (iapws.py:161-203). -/
def r1IJn : List (ℤ × ℤ × ℝ) := [
  (0, -2, 0.14632971213167),
  (0, -1, -0.84548187169114),
  (0, 0, -3.756360367204),
  (0, 1, 3.3855169168385),
  (0, 2, -0.95791963387872),
  (0, 3, 0.15772038513228),
  (0, 4, -0.016616417199501),
  (0, 5, 0.00081214629983568),
  (1, -9, 0.00028319080123804),
  (1, -7, -0.00060706301565874),
  (1, -1, -0.018990068218419),
  (1, 0, -0.032529748770505),
  (1, 1, -0.021841717175414),
  (1, 3, -5.283835796993e-05),
  (2, -3, -0.00047184321073267),
  (2, 0, -0.00030001780793026),
  (2, 1, 4.7661393906987e-05),
  (2, 3, -4.4141845330846e-06),
  (2, 17, -7.2694996297594e-16),
  (3, -4, -3.1679644845054e-05),
  (3, 0, -2.8270797985312e-06),
  (3, 6, -8.5205128120103e-10),
  (4, -5, -2.2425281908e-06),
  (4, -2, -6.5171222895601e-07),
  (4, 10, -1.4341729937924e-13),
  (5, -8, -4.0516996860117e-07),
  (8, -11, -1.2734301741641e-09),
  (8, -6, -1.7424871230634e-10),
  (21, -29, -6.8762131295531e-19),
  (23, -31, 1.4478307828521e-20),
  (29, -38, 2.6335781662795e-23),
  (30, -39, -1.1947622640071e-23),
  (31, -40, 1.8228094581404e-24),
  (32, -41, -9.3537087292458e-26)]

/-- `_basic_equation1('gamma')`:
`sum(ni * (7.1 - pi)**Ii * (tau - 1.222)**Ji)`. -/
def gamma1 (piv tauv : ℝ) : ℝ :=
  (r1IJn.map fun t => t.2.2 * (7.1 - piv) ^ t.1 * (tauv - 1.222) ^ t.2.1).sum

/-- `_basic_equation1('gamma_tau')`. -/
def gamma1_tau (piv tauv : ℝ) : ℝ :=
  (r1IJn.map fun t => t.2.2 * (7.1 - piv) ^ t.1 * (t.2.1 : ℝ) *
    (tauv - 1.222) ^ (t.2.1 - 1)).sum

/-- `_basic_equation1('gamma_tau_tau')`. -/
def gamma1_tau_tau (piv tauv : ℝ) : ℝ :=
  (r1IJn.map fun t => t.2.2 * (7.1 - piv) ^ t.1 * (t.2.1 : ℝ) * ((t.2.1 : ℝ) - 1) *
    (tauv - 1.222) ^ (t.2.1 - 2)).sum

/-- `_basic_equation1('gamma_pi')`. -/
def gamma1_pi (piv tauv : ℝ) : ℝ :=
  -1 * (r1IJn.map fun t => t.2.2 * (t.1 : ℝ) * (7.1 - piv) ^ (t.1 - 1) *
    (tauv - 1.222) ^ t.2.1).sum

/-- `_basic_equation1('gamma_pi_pi')`. -/
def gamma1_pi_pi (piv tauv : ℝ) : ℝ :=
  (r1IJn.map fun t => t.2.2 * (t.1 : ℝ) * ((t.1 : ℝ) - 1) * (7.1 - piv) ^ (t.1 - 2) *
    (tauv - 1.222) ^ t.2.1).sum

/-- `_basic_equation1('gamma_pi_tau')` (also dispatched as `'gamma_tau_pi'`). -/
def gamma1_pi_tau (piv tauv : ℝ) : ℝ :=
  -1 * (r1IJn.map fun t => t.2.2 * (t.1 : ℝ) * (7.1 - piv) ^ (t.1 - 1) *
    (t.2.1 : ℝ) * (tauv - 1.222) ^ (t.2.1 - 1)).sum

/-- Region 2 ideal-part pairs `(J0, n0)` (iapws.py:232-242). -/
def r2Jn0 : List (ℤ × ℝ) := [
  (0, -9.6927686500217),
  (1, 10.086655968018),
  (-5, -0.005608791128302),
  (-4, 0.071452738081455),
  (-3, -0.40710498223928),
  (-2, 1.4240819171444),
  (-1, -4.383951131945),
  (2, -0.28408632460772),
  (3, 0.021268463753307)]

/-- Region 2 residual-part triples `(Ii, Ji, ni)` (iapws.py:244-298); the
source stores the exponents as float arrays with integer values. -/
def r2IJn : List (ℤ × ℤ × ℝ) := [
  (1, 0, -0.0017731742473213),
  (1, 1, -0.017834862292358),
  (1, 2, -0.045996013696365),
  (1, 3, -0.057581259083432),
  (1, 6, -0.05032527872793),
  (2, 1, -3.3032641670203e-05),
  (2, 2, -0.00018948987516315),
  (2, 4, -0.0039392777243355),
  (2, 7, -0.043797295650573),
  (2, 36, -2.6674547914087e-05),
  (3, 0, 2.0481737692309e-08),
  (3, 1, 4.3870667284435e-07),
  (3, 3, -3.227767723857e-05),
  (3, 6, -0.0015033924542148),
  (3, 35, -0.040668253562649),
  (4, 1, -7.8847309559367e-10),
  (4, 2, 1.2790717852285e-08),
  (4, 3, 4.8225372718507e-07),
  (5, 7, 2.2922076337661e-06),
  (6, 3, -1.6714766451061e-11),
  (6, 16, -0.0021171472321355),
  (6, 35, -23.895741934104),
  (7, 0, -5.905956432427e-18),
  (7, 11, -1.2621808899101e-06),
  (7, 25, -0.038946842435739),
  (8, 8, 1.1256211360459e-11),
  (8, 36, -8.2311340897998),
  (9, 13, 1.9809712802088e-08),
  (10, 4, 1.0406965210174e-19),
  (10, 10, -1.0234747095929e-13),
  (10, 14, -1.0018179379511e-09),
  (16, 29, -8.0882908646985e-11),
  (16, 50, 0.10693031879409),
  (18, 57, -0.33662250574171),
  (20, 20, 8.9185845355421e-25),
  (20, 35, 3.0629316876232e-13),
  (20, 48, -4.2002467698208e-06),
  (21, 21, -5.9056029685639e-26),
  (22, 53, 3.7826947613457e-06),
  (23, 39, -1.2768608934681e-15),
  (24, 26, 7.3087610595061e-29),
  (24, 40, 5.5414715350778e-17),
  (24, 58, -9.436970724121e-07)]

/-- `_basic_equation2('gamma_0')`: `log(pi) + sum(n0 * tau**J0)`. -/
def gamma2_0 (piv tauv : ℝ) : ℝ :=
  Real.log piv + (r2Jn0.map fun t => t.2 * tauv ^ t.1).sum

/-- `_basic_equation2('gamma_0_pi')`: `1/pi`. -/
def gamma2_0_pi (piv : ℝ) : ℝ := 1 / piv

/-- `_basic_equation2('gamma_0_tau')`: `0 + sum(n0 * J0 * tau**(J0-1))`. -/
def gamma2_0_tau (tauv : ℝ) : ℝ :=
  0 + (r2Jn0.map fun t => t.2 * (t.1 : ℝ) * tauv ^ (t.1 - 1)).sum

/-- `_basic_equation2('gamma_r')`: `sum(ni * pi**Ii * (tau - 0.5)**Ji)`. -/
def gamma2_r (piv tauv : ℝ) : ℝ :=
  (r2IJn.map fun t => t.2.2 * piv ^ t.1 * (tauv - 0.5) ^ t.2.1).sum

/-- `_basic_equation2('gamma_r_pi')`. -/
def gamma2_r_pi (piv tauv : ℝ) : ℝ :=
  (r2IJn.map fun t => t.2.2 * (t.1 : ℝ) * piv ^ (t.1 - 1) * (tauv - 0.5) ^ t.2.1).sum

/-- `_basic_equation2('gamma_r_tau')`. -/
def gamma2_r_tau (piv tauv : ℝ) : ℝ :=
  (r2IJn.map fun t => t.2.2 * piv ^ t.1 * (t.2.1 : ℝ) * (tauv - 0.5) ^ (t.2.1 - 1)).sum

/-- Region 5 ideal-part pairs `(J0, n0)` (iapws.py:438-444). -/
def r5Jn0 : List (ℤ × ℝ) := [
  (0, -13.179983674201),
  (1, 6.8540841634434),
  (-3, -0.024805148933466),
  (-2, 0.36901534980333),
  (-1, -3.1161318213925),
  (2, -0.32961626538917)]

/-- Region 5 residual-part triples `(Ii, Ji, ni)` (iapws.py:445-452). -/
def r5IJn : List (ℤ × ℤ × ℝ) := [
  (1, 1, 0.0015736404855259),
  (1, 2, 0.00090153761673944),
  (1, 3, -0.0050270077677648),
  (2, 3, 2.2440037409485e-06),
  (2, 9, -4.1163275453471e-06),
  (3, 7, 3.7919454822955e-08)]

/-- `_basic_equation5('gamma_0_tau')`: `sum(n0 * J0 * tau**(J0-1))`. -/
def gamma5_0_tau (tauv : ℝ) : ℝ :=
  (r5Jn0.map fun t => t.2 * (t.1 : ℝ) * tauv ^ (t.1 - 1)).sum

/-- `_basic_equation5('gamma_r_tau')`: `sum(ni * pi**Ii * Ji * tau**(Ji-1))`. -/
def gamma5_r_tau (piv tauv : ℝ) : ℝ :=
  (r5IJn.map fun t => t.2.2 * piv ^ t.1 * (t.2.1 : ℝ) * tauv ^ (t.2.1 - 1)).sum

/-- Region 3 coefficient triples `(Ii, Ji, ni)` (iapws.py:337-388); the
first row is separated off by the source (`Ii[1:]` etc.). -/
def r3IJn : List (ℤ × ℤ × ℝ) := [
  (-1, -1, 1.0658070028513),
  (0, 0, -15.732845290239),
  (0, 1, 20.944396974307),
  (0, 2, -7.6867707878716),
  (0, 7, 2.6185947787954),
  (0, 10, -2.808078114862),
  (0, 12, 1.2053369696517),
  (0, 23, -0.0084566812812502),
  (1, 2, -1.2654315477714),
  (1, 6, -1.1524407806681),
  (1, 15, 0.88521043984318),
  (1, 17, -0.64207765181607),
  (2, 0, 0.38493460186671),
  (2, 2, -0.85214708824206),
  (2, 6, 4.8972281541877),
  (2, 7, -3.0502617256965),
  (2, 22, 0.039420536879154),
  (2, 26, 0.12558408424308),
  (3, 0, -0.2799932969871),
  (3, 2, 1.389979956946),
  (3, 4, -2.018991502357),
  (3, 16, -0.0082147637173963),
  (3, 26, -0.47596035734923),
  (4, 0, 0.0439840744735),
  (4, 2, -0.44476435428739),
  (4, 4, 0.90572070719733),
  (4, 26, 0.70522450087967),
  (5, 1, 0.10770512626332),
  (5, 3, -0.32913623258954),
  (5, 26, -0.50871062041158),
  (6, 0, -0.022175400873096),
  (6, 2, 0.094260751665092),
  (6, 26, 0.16436278447961),
  (7, 2, -0.013503372241348),
  (8, 26, -0.014834345352472),
  (9, 2, 0.00057922953628084),
  (9, 26, 0.0032308904703711),
  (10, 0, 8.0964802996215e-05),
  (10, 1, -0.00016557679795037),
  (11, 26, -4.4923899061815e-05)]

/-- `n1 = 1.0658070028513` (iapws.py:394). -/
def r3n1 : ℝ := 1.0658070028513

/-- The truncated lists `Ii[1:]`, `Ji[1:]`, `ni[1:]` used by the sums. -/
def r3tail : List (ℤ × ℤ × ℝ) := r3IJn.drop 1

/-- The objective function `obj(x)` of `_basic_equation3` (iapws.py:400-403):
`p - 1000*x*R*T*(x/rhoc)*(n1/(x/rhoc) + sum(ni*Ii*(x/rhoc)**(Ii-1)*tau**Ji))`
with `tau = Tc / T`. -/
def region3_obj (R p T x : ℝ) : ℝ :=
  p - 1000 * x * R * T * (x / rhocrit) *
    (r3n1 / (x / rhocrit) +
      (r3tail.map fun t => t.2.2 * (t.1 : ℝ) * (x / rhocrit) ^ (t.1 - 1) *
        (Tcrit / T) ^ t.2.1).sum)

/-- Modelled from the spec: the region-3 density solve.  The source scans
integer brackets `[i, i+1]` for `i` in `range(1, 580)` for a sign change of
`obj` and then calls `scipy.optimize.bisect` (an external library whose code
is not part of this repository) with tolerance 1e-10; the spec, section 4.2,
describes the result as the root of the implicit pressure equation found in
the scanned bracket.  We model the solved density as a chosen real root of
`obj` in the bracket `[1, 580]` when one exists. -/
def region3_rho (R p T : ℝ) : ℝ :=
  Classical.epsilon fun x => 1 ≤ x ∧ x ≤ 580 ∧ region3_obj R p T x = 0

/-- `_basic_equation3('PHI_delta')` first component:
`n1/delta + sum(ni*Ii*delta**(Ii-1)*tau**Ji)` at the solved density. -/
def phi3_delta (R p T : ℝ) : ℝ :=
  r3n1 / (region3_rho R p T / rhocrit) +
    (r3tail.map fun t => t.2.2 * (t.1 : ℝ) * (region3_rho R p T / rhocrit) ^ (t.1 - 1) *
      (Tcrit / T) ^ t.2.1).sum

/-- `_basic_equation3('PHI_tau')` first component:
`sum(ni*delta**Ii*Ji*tau**(Ji-1))` at the solved density. -/
def phi3_tau (R p T : ℝ) : ℝ :=
  (r3tail.map fun t => t.2.2 * (region3_rho R p T / rhocrit) ^ t.1 * (t.2.1 : ℝ) *
    (Tcrit / T) ^ (t.2.1 - 1)).sum

/-- The region dispatch every property method performs: the exception from
`self._is_in_region()` propagates, a region number selects a branch. -/
def regionCase (e : Except String ℕ) (f : ℕ → Except String (Option ℝ)) :
    Except String (Option ℝ) :=
  match e with
  | Except.error msg => Except.error msg
  | Except.ok r => f r

theorem regionCase_ok (r : ℕ) (f : ℕ → Except String (Option ℝ)) :
    regionCase (Except.ok r) f = f r := rfl

theorem regionCase_error (msg : String) (f : ℕ → Except String (Option ℝ)) :
    regionCase (Except.error msg) f = Except.error msg := rfl

/-- `Water.gibbs_energy` (iapws.py:484-504): regions 1 and 2 return
`gamma * R * T`; regions 3, 4 and 5 fall through every branch and the
method returns `None`. -/
def gibbs_energy (s : WaterState) : Except String (Option ℝ) :=
  regionCase (is_in_region s.p s.T) fun r =>
    if r = 1 then
      Except.ok (some (gamma1 (s.p / 16.53e6) (1386 / s.T) * s.R * s.T))
    else if r = 2 then
      Except.ok (some ((gamma2_0 (s.p / 1e6) (540 / s.T) +
        gamma2_r (s.p / 1e6) (540 / s.T)) * s.R * s.T))
    else Except.ok none

/-- `Water.specific_volume` (iapws.py:506-533): region 3 hits the explicit
`return None`; regions 4 and 5 `pass` and fall to the trailing `return -1`. -/
def specific_volume (s : WaterState) : Except String (Option ℝ) :=
  regionCase (is_in_region s.p s.T) fun r =>
    if r = 1 then
      Except.ok (some (gamma1_pi (s.p / 16.53e6) (1386 / s.T) * s.R * s.T *
        (s.p / 16.53e6) / s.p * 1e3))
    else if r = 2 then
      Except.ok (some ((s.p / 1e6) * (gamma2_0_pi (s.p / 1e6) +
        gamma2_r_pi (s.p / 1e6) (540 / s.T)) * s.R * s.T / s.p * 1e3))
    else if r = 3 then Except.ok none
    else Except.ok (some (-1))

/-- `Water.internal_energy` (iapws.py:535-566): regions 3, 4 and 5 `pass`
and fall to the trailing `return -1`. -/
def internal_energy (s : WaterState) : Except String (Option ℝ) :=
  regionCase (is_in_region s.p s.T) fun r =>
    if r = 1 then
      Except.ok (some (((1386 / s.T) * gamma1_tau (s.p / 16.53e6) (1386 / s.T) -
        (s.p / 16.53e6) * gamma1_pi (s.p / 16.53e6) (1386 / s.T)) * s.R * s.T))
    else if r = 2 then
      Except.ok (some (((540 / s.T) * (gamma2_0_tau (540 / s.T) +
        gamma2_r_tau (s.p / 1e6) (540 / s.T)) -
        (s.p / 1e6) * (gamma2_0_pi (s.p / 1e6) +
        gamma2_r_pi (s.p / 1e6) (540 / s.T))) * s.R * s.T))
    else Except.ok (some (-1))

/-- `Water.entropy` (iapws.py:568-598): regions 3, 4 and 5 `pass` and fall
to the trailing `return -1`. -/
def entropy (s : WaterState) : Except String (Option ℝ) :=
  regionCase (is_in_region s.p s.T) fun r =>
    if r = 1 then
      Except.ok (some (((1386 / s.T) * gamma1_tau (s.p / 16.53e6) (1386 / s.T) -
        gamma1 (s.p / 16.53e6) (1386 / s.T)) * s.R))
    else if r = 2 then
      Except.ok (some (((540 / s.T) * (gamma2_0_tau (540 / s.T) +
        gamma2_r_tau (s.p / 1e6) (540 / s.T)) -
        (gamma2_0 (s.p / 1e6) (540 / s.T) +
        gamma2_r (s.p / 1e6) (540 / s.T))) * s.R))
    else Except.ok (some (-1))

/-- `Water.enthalpy` (iapws.py:600-636): all five regions have a value
(region 4 returns `None` explicitly); region 3 evaluates the basic equation 3
at the numerically solved density. -/
def enthalpy (s : WaterState) : Except String (Option ℝ) :=
  regionCase (is_in_region s.p s.T) fun r =>
    if r = 1 then
      Except.ok (some (gamma1_tau (s.p / 16.53e6) (1386 / s.T) * 1386 * s.R))
    else if r = 2 then
      Except.ok (some (540 * s.R * (gamma2_0_tau (540 / s.T) +
        gamma2_r_tau (s.p / 1e6) (540 / s.T))))
    else if r = 3 then
      Except.ok (some (((Tcrit / s.T) * phi3_tau s.R s.p s.T +
        (region3_rho s.R s.p s.T / rhocrit) * phi3_delta s.R s.p s.T) * s.R * s.T))
    else if r = 4 then Except.ok none
    else if r = 5 then
      Except.ok (some ((1000 / s.T) * (gamma5_0_tau (1000 / s.T) +
        gamma5_r_tau (s.p / 1e6) (1000 / s.T)) * s.R * s.T))
    else Except.ok none

/-- `Water.heat_capacity` (iapws.py:638-670): region 1 has a value; region 3
evaluates the undefined local name `rho` (`delta = rho / self.rhoc`) and
raises `NameError`; regions 2, 4 and 5 `pass` and fall to `return -1`. -/
def heat_capacity (s : WaterState) : Except String (Option ℝ) :=
  regionCase (is_in_region s.p s.T) fun r =>
    if r = 1 then
      Except.ok (some (-1 * (1386 / s.T) * (1386 / s.T) * s.R *
        gamma1_tau_tau (s.p / 16.53e6) (1386 / s.T)))
    else if r = 3 then
      Except.error "NameError: name rho is not defined"
    else Except.ok (some (-1))

/-- `Water.heat_capacity_constant_v` (iapws.py:672-699): region 1 has a
value; all other regions `pass` and fall to `return -1`. -/
def heat_capacity_constant_v (s : WaterState) : Except String (Option ℝ) :=
  regionCase (is_in_region s.p s.T) fun r =>
    if r = 1 then
      Except.ok (some ((-((1386 / s.T) ^ 2) *
        gamma1_tau_tau (s.p / 16.53e6) (1386 / s.T) +
        (gamma1_pi (s.p / 16.53e6) (1386 / s.T) -
          (1386 / s.T) * gamma1_pi_tau (s.p / 16.53e6) (1386 / s.T)) ^ 2 /
        gamma1_pi_pi (s.p / 16.53e6) (1386 / s.T)) * s.R))
    else Except.ok (some (-1))

/-- `Water.speed_of_sound` (iapws.py:701-732): region 1 has a value; all
other regions `pass` and fall to `return -1`. -/
def speed_of_sound (s : WaterState) : Except String (Option ℝ) :=
  regionCase (is_in_region s.p s.T) fun r =>
    if r = 1 then
      Except.ok (some (Real.sqrt ((gamma1_pi (s.p / 16.53e6) (1386 / s.T) ^ 2 /
        ((gamma1_pi (s.p / 16.53e6) (1386 / s.T) -
          (1386 / s.T) * gamma1_pi_tau (s.p / 16.53e6) (1386 / s.T)) ^ 2 /
          ((1386 / s.T) ^ 2 * gamma1_tau_tau (s.p / 16.53e6) (1386 / s.T)) -
          gamma1_pi_pi (s.p / 16.53e6) (1386 / s.T))) * s.R * s.T * 1000)))
    else Except.ok (some (-1))

/-- Claim C5: constructing a Water state succeeds exactly on the validity
envelope 273.15 K <= T <= 2273.15 K, 0 <= p <= 100 MPa, and p <= 50 MPa
whenever T > 1073.15 K; outside it the constructor raises ValueError
eagerly (no clamping: the stored state is exactly the given pair). -/
theorem C5_construction_envelope (p T : ℝ) (m : Bool) :
    (waterInit p T m = Except.ok ⟨p, T, if m then Rmassic else Rgas⟩ ↔
      273.15 ≤ T ∧ T ≤ 2273.15 ∧ 0 ≤ p ∧ p ≤ 100e6 ∧ (T > 1073.15 → p ≤ 50e6)) ∧
    ((∃ e, waterInit p T m = Except.error e) ↔
      ¬ (273.15 ≤ T ∧ T ≤ 2273.15 ∧ 0 ≤ p ∧ p ≤ 100e6 ∧ (T > 1073.15 → p ≤ 50e6))) := by
  unfold waterInit
  by_cases h1 : T < 273.15 ∨ T > 2273.15
  · rw [if_pos h1]
    constructor
    · constructor
      · intro hs
        cases hs
      · rintro ⟨ha, hb, -⟩
        rcases h1 with h | h
        · linarith
        · linarith
    · constructor
      · rintro - ⟨ha, hb, -⟩
        rcases h1 with h | h
        · linarith
        · linarith
      · exact fun _ => ⟨_, rfl⟩
  rw [if_neg h1]
  push_neg at h1
  by_cases h2 : p > 100e6 ∨ p < 0
  · rw [if_pos h2]
    constructor
    · constructor
      · intro hs
        cases hs
      · rintro ⟨-, -, hc, hd, -⟩
        rcases h2 with h | h
        · linarith
        · linarith
    · constructor
      · rintro - ⟨-, -, hc, hd, -⟩
        rcases h2 with h | h
        · linarith
        · linarith
      · exact fun _ => ⟨_, rfl⟩
  rw [if_neg h2]
  push_neg at h2
  by_cases h3 : T > 1073.15 ∧ p > 50e6
  · rw [if_pos h3]
    constructor
    · constructor
      · intro hs
        cases hs
      · rintro ⟨-, -, -, -, he⟩
        exact absurd (he h3.1) (not_le.2 h3.2)
    · constructor
      · rintro - ⟨-, -, -, -, he⟩
        exact absurd (he h3.1) (not_le.2 h3.2)
      · exact fun _ => ⟨_, rfl⟩
  · rw [if_neg h3]
    push_neg at h3
    constructor
    · constructor
      · intro _
        exact ⟨h1.1, h1.2, h2.2, h2.1, fun ht => h3 ht⟩
      · intro _
        rfl
    · constructor
      · rintro ⟨e, he⟩
        cases he
      · intro hcon
        exact absurd ⟨h1.1, h1.2, h2.2, h2.1, fun ht => h3 ht⟩ hcon

/-- Claim C2 counterexample: (p, T) = (100 Pa, 300 K) satisfies the validity
envelope, yet the region classification raises
ValueError("Pressure out of range.") out of the saturation call instead of
returning region 1 or 2 as the claim requires. -/
theorem C2_envelope_point_raises_counterexample :
    waterInit 100 300 false = Except.ok ⟨100, 300, Rgas⟩ ∧
    is_in_region 100 300 = Except.error "Pressure out of range." := by
  constructor
  · unfold waterInit
    rw [if_neg (by norm_num), if_neg (by norm_num), if_neg (by norm_num)]
    rfl
  · have hts : temperature_saturation 100 = Except.error "Pressure out of range." := by
      unfold temperature_saturation
      rw [if_pos (Or.inl (by norm_num))]
    unfold is_in_region
    rw [if_neg (by norm_num [Ttriple, ptriple]), if_pos (by norm_num), hts, tsatCase_error]

/-- The region classification as the amended Claim C2 words it: region 1 at
the exact triple point; for 273.15 <= T <= 623.15 a pressure below 611.213 Pa
raises ValueError and otherwise the comparison with the backward saturation
equation decides region 1 versus 2; for 623.15 < T <= 1073.15 the quadratic
2/3 boundary decides region 3 versus 2; the remaining envelope temperatures
give region 5. -/
def regionSpec (p T : ℝ) : Except String ℕ :=
  if T = 273.16 ∧ p = 611.657 then Except.ok 1
  else if 273.15 ≤ T ∧ T ≤ 623.15 then
    if p < 611.213 then Except.error "Pressure out of range."
    else if T < tsatFromBeta ((p / 1e6) ^ ((1 : ℝ) / 4)) then Except.ok 1
    else Except.ok 2
  else if 623.15 < T ∧ T ≤ 1073.15 then
    if p > pressure23 T then Except.ok 3 else Except.ok 2
  else Except.ok 5

/-- Claim C2 (amended): on the validity envelope the classification agrees
with `regionSpec`: the claimed case split, corrected so that in the
273.15-623.15 K band a pressure below 611.213 Pa raises ValueError instead
of classifying. -/
theorem C2_region_classification (p T : ℝ)
    (h1 : 273.15 ≤ T) (h2 : T ≤ 2273.15) (h3 : 0 ≤ p) (h4 : p ≤ 100e6) :
    is_in_region p T = regionSpec p T := by
  by_cases htp : T = (273.16 : ℝ) ∧ p = 611.657
  · have hl : is_in_region p T = Except.ok 1 := by
      unfold is_in_region
      rw [if_pos (by simp only [Ttriple, ptriple]; exact htp)]
    have hr : regionSpec p T = Except.ok 1 := by
      unfold regionSpec
      rw [if_pos htp]
    rw [hl, hr]
  have htp' : ¬ (T = Ttriple ∧ p = ptriple) := by
    simp only [Ttriple, ptriple]
    exact htp
  by_cases hband : 273.15 ≤ T ∧ T ≤ 623.15
  · by_cases hlow : p < 611.213
    · have hts : temperature_saturation p = Except.error "Pressure out of range." := by
        unfold temperature_saturation
        rw [if_pos (Or.inl (by linarith))]
      have hl : is_in_region p T = Except.error "Pressure out of range." := by
        unfold is_in_region
        rw [if_neg htp', if_pos hband, hts, tsatCase_error]
      have hr : regionSpec p T = Except.error "Pressure out of range." := by
        unfold regionSpec
        rw [if_neg htp, if_pos hband, if_pos hlow]
      rw [hl, hr]
    · have hts : temperature_saturation p =
          Except.ok (tsatFromBeta ((p / 1e6) ^ ((1 : ℝ) / 4))) := by
        unfold temperature_saturation
        rw [if_neg]
        push_neg
        rw [pcrit]
        constructor
        · linarith
        · linarith
      have hl : is_in_region p T =
          (if T < tsatFromBeta ((p / 1e6) ^ ((1 : ℝ) / 4)) then Except.ok 1
           else Except.ok 2) := by
        unfold is_in_region
        rw [if_neg htp', if_pos hband, hts, tsatCase_ok]
      have hr : regionSpec p T =
          (if T < tsatFromBeta ((p / 1e6) ^ ((1 : ℝ) / 4)) then Except.ok 1
           else Except.ok 2) := by
        unfold regionSpec
        rw [if_neg htp, if_pos hband, if_neg hlow]
      rw [hl, hr]
  by_cases hmid : 623.15 < T ∧ T ≤ 1073.15
  · have hl : is_in_region p T =
        (if p > pressure23 T then Except.ok 3 else Except.ok 2) := by
      unfold is_in_region
      rw [if_neg htp', if_neg hband, if_pos hmid]
    have hr : regionSpec p T =
        (if p > pressure23 T then Except.ok 3 else Except.ok 2) := by
      unfold regionSpec
      rw [if_neg htp, if_neg hband, if_pos hmid]
    rw [hl, hr]
  · have hgt : 1073.15 < T := by
      rcases not_and_or.1 hband with h | h
      · exact absurd h1 h
      · rcases not_and_or.1 hmid with h' | h'
        · exact absurd (lt_of_not_le h) h'
        · exact lt_of_not_le h'
    have hl : is_in_region p T = Except.ok 5 := by
      unfold is_in_region
      rw [if_neg htp', if_neg hband, if_neg hmid, if_pos ⟨le_of_lt hgt, h2⟩]
    have hr : regionSpec p T = Except.ok 5 := by
      unfold regionSpec
      rw [if_neg htp, if_neg hband, if_neg hmid]
    rw [hl, hr]

theorem C2_region_classification_witness :
    is_in_region 20e6 300 = regionSpec 20e6 300 :=
  C2_region_classification 20e6 300 (by norm_num) (by norm_num) (by norm_num) (by norm_num)

theorem is_in_region_40MPa_700K : is_in_region 40e6 700 = Except.ok 3 := by
  unfold is_in_region
  rw [if_neg (by norm_num [Ttriple, ptriple]), if_neg (by norm_num), if_pos (by norm_num),
    if_pos (by norm_num [pressure23, b23n0, b23n1, b23n2])]

/-- Claim C6 counterexample: (40 MPa, 700 K) classifies into region 3, and
there entropy returns the sentinel value -1 (as `Except.ok`) instead of
raising an error distinguishable from a generic failure. -/
theorem C6_region3_sentinel_counterexample :
    is_in_region 40e6 700 = Except.ok 3 ∧
    entropy ⟨40e6, 700, Rgas⟩ = Except.ok (some (-1)) := by
  refine ⟨is_in_region_40MPa_700K, ?_⟩
  unfold entropy
  rw [show is_in_region (WaterState.mk 40e6 700 Rgas).p (WaterState.mk 40e6 700 Rgas).T =
    Except.ok 3 from is_in_region_40MPa_700K, regionCase_ok]
  rfl

/-- Claim C6 (amended): for every water state classified into region 3,
specific_volume returns the Python value None, internal_energy, entropy,
speed_of_sound and heat_capacity_constant_v return the sentinel -1, and
heat_capacity raises a NameError (a generic failure from the undefined local
`rho`); no region-3 property besides enthalpy raises NotImplementedError or
any distinguishable error. -/
theorem C6_region3_behavior (s : WaterState)
    (h : is_in_region s.p s.T = Except.ok 3) :
    specific_volume s = Except.ok none ∧
    internal_energy s = Except.ok (some (-1)) ∧
    entropy s = Except.ok (some (-1)) ∧
    speed_of_sound s = Except.ok (some (-1)) ∧
    heat_capacity_constant_v s = Except.ok (some (-1)) ∧
    heat_capacity s = Except.error "NameError: name rho is not defined" := by
  unfold specific_volume internal_energy entropy speed_of_sound
    heat_capacity_constant_v heat_capacity
  rw [h]
  exact ⟨rfl, rfl, rfl, rfl, rfl, rfl⟩

theorem C6_region3_behavior_witness :
    specific_volume ⟨40e6, 700, Rgas⟩ = Except.ok none ∧
    internal_energy ⟨40e6, 700, Rgas⟩ = Except.ok (some (-1)) ∧
    entropy ⟨40e6, 700, Rgas⟩ = Except.ok (some (-1)) ∧
    speed_of_sound ⟨40e6, 700, Rgas⟩ = Except.ok (some (-1)) ∧
    heat_capacity_constant_v ⟨40e6, 700, Rgas⟩ = Except.ok (some (-1)) ∧
    heat_capacity ⟨40e6, 700, Rgas⟩ = Except.error "NameError: name rho is not defined" :=
  C6_region3_behavior ⟨40e6, 700, Rgas⟩ is_in_region_40MPa_700K

theorem entropy_ok_of_region (s : WaterState) (r : ℕ)
    (h : is_in_region s.p s.T = Except.ok r) : ∃ v, entropy s = Except.ok v := by
  unfold entropy
  simp only [h, regionCase_ok]
  by_cases h1 : r = 1
  · exact ⟨_, by rw [if_pos h1]⟩
  by_cases h2 : r = 2
  · exact ⟨_, by rw [if_neg h1, if_pos h2]⟩
  · exact ⟨_, by rw [if_neg h1, if_neg h2]⟩

/-- Claim C8 (amended): for 273.15 K <= T <= 623.15 K and a pressure
above the critical pressure but inside the envelope, NO ValueError is
raised: the saturation guard compares the MPa value of p against the
critical pressure stored in Pa, so it accepts every envelope pressure;
classification proceeds on the extrapolated backward equation, returns
region 1 or 2, and entropy evaluation produces a value. -/
theorem C8_above_critical_no_error (p T R : ℝ)
    (h1 : 273.15 ≤ T) (h2 : T ≤ 623.15) (h3 : 22.064e6 < p) (h4 : p ≤ 100e6) :
    temperature_saturation p =
      Except.ok (tsatFromBeta ((p / 1e6) ^ ((1 : ℝ) / 4))) ∧
    (∃ r, is_in_region p T = Except.ok r ∧ (r = 1 ∨ r = 2)) ∧
    (∃ v, entropy ⟨p, T, R⟩ = Except.ok v) := by
  have hts : temperature_saturation p =
      Except.ok (tsatFromBeta ((p / 1e6) ^ ((1 : ℝ) / 4))) := by
    unfold temperature_saturation
    rw [if_neg]
    push_neg
    rw [pcrit]
    constructor
    · linarith
    · linarith
  have hreg : ∃ r, is_in_region p T = Except.ok r ∧ (r = 1 ∨ r = 2) := by
    unfold is_in_region
    rw [if_neg (by rintro ⟨-, hp⟩; rw [ptriple] at hp; linarith), if_pos ⟨h1, h2⟩]
    simp only [hts, tsatCase_ok]
    by_cases hcmp : T < tsatFromBeta ((p / 1e6) ^ ((1 : ℝ) / 4))
    · exact ⟨1, by rw [if_pos hcmp], Or.inl rfl⟩
    · exact ⟨2, by rw [if_neg hcmp], Or.inr rfl⟩
  rcases hreg with ⟨r, hr, hr12⟩
  exact ⟨hts, ⟨r, hr, hr12⟩, entropy_ok_of_region ⟨p, T, R⟩ r hr⟩

theorem C8_above_critical_no_error_witness :
    temperature_saturation 50e6 =
      Except.ok (tsatFromBeta ((50e6 / 1e6) ^ ((1 : ℝ) / 4))) ∧
    (∃ r, is_in_region 50e6 300 = Except.ok r ∧ (r = 1 ∨ r = 2)) ∧
    (∃ v, entropy ⟨50e6, 300, Rgas⟩ = Except.ok v) :=
  C8_above_critical_no_error 50e6 300 Rgas (by norm_num) (by norm_num)
    (by norm_num) (by norm_num)

/-- Claim C8 counterexample (to the claim as stated): at (50 MPa, 300 K),
inside the envelope with p above the critical pressure, the classification
does NOT raise ValueError: it succeeds, because the precondition of
temperature_saturation fails to reject pressures above the critical
pressure (MPa compared against Pa). -/
theorem C8_no_valueerror_counterexample :
    (∃ ts, temperature_saturation 50e6 = Except.ok ts) ∧
    (∃ r, is_in_region 50e6 300 = Except.ok r) ∧
    (∃ v, entropy ⟨50e6, 300, Rgas⟩ = Except.ok v) := by
  have hts : temperature_saturation 50e6 =
      Except.ok (tsatFromBeta ((50e6 / 1e6) ^ ((1 : ℝ) / 4))) := by
    unfold temperature_saturation
    rw [if_neg]
    push_neg
    rw [pcrit]
    constructor
    · norm_num
    · norm_num
  have hreg : ∃ r, is_in_region 50e6 300 = Except.ok r := by
    unfold is_in_region
    rw [if_neg (by norm_num [Ttriple, ptriple]), if_pos (by norm_num)]
    simp only [hts, tsatCase_ok]
    by_cases hcmp : (300 : ℝ) < tsatFromBeta ((50e6 / 1e6) ^ ((1 : ℝ) / 4))
    · exact ⟨1, by rw [if_pos hcmp]⟩
    · exact ⟨2, by rw [if_neg hcmp]⟩
  rcases hreg with ⟨r, hr⟩
  exact ⟨⟨_, hts⟩, ⟨r, hr⟩, entropy_ok_of_region ⟨50e6, 300, Rgas⟩ r hr⟩

theorem satV_mem (T : ℝ) (h1 : 280 ≤ T) (h2 : T ≤ 640) :
    T < satV T ∧ 280 ≤ satV T ∧ satV T ≤ 641 := by
  have hd : T - satn9 < 0 := by
    rw [satn9]
    linarith
  have hgt : T < satV T := by
    have hq : 0 < satn8 / (T - satn9) :=
      div_pos_of_neg_of_neg (by rw [satn8]; norm_num) hd
    unfold satV
    linarith
  refine ⟨hgt, by linarith, ?_⟩
  have hflip : satn8 / (T - satn9) = (-satn8) / (satn9 - T) := by
    rw [show T - satn9 = -(satn9 - T) by ring, div_neg, neg_div]
  have hub : (-satn8) / (satn9 - T) ≤ 1 := by
    rw [div_le_one (by rw [satn9]; linarith)]
    rw [satn8, satn9]
    linarith
  unfold satV
  rw [hflip]
  linarith

theorem satB_neg (v : ℝ) (h1 : 280 ≤ v) (h2 : v ≤ 641) : satB v < 0 := by
  unfold satB satn2 satn3 satn4
  nlinarith [sq_nonneg (v - 352)]

theorem satC_pos (v : ℝ) (h1 : 280 ≤ v) (h2 : v ≤ 641) : 0 < satC v := by
  unfold satC satn5 satn6 satn7
  nlinarith [sq_nonneg (v - 161.7)]

theorem satDelta_pos (v : ℝ) (h1 : 280 ≤ v) (h2 : v ≤ 641) :
    0 < satB v ^ 2 - 4 * satA v * satC v := by
  have hx : (0 : ℝ) ≤ v - 280 := by linarith
  have hy : (0 : ℝ) ≤ 641 - v := by linarith
  unfold satA satB satC satn0 satn1 satn2 satn3 satn4 satn5 satn6 satn7
  nlinarith [mul_nonneg hx hy, mul_nonneg (mul_nonneg hx hx) hy,
    mul_nonneg hx (mul_nonneg hy hy), mul_nonneg hx hx, mul_nonneg hy hy]

theorem satDen_pos (v : ℝ) (h1 : 280 ≤ v) (h2 : v ≤ 641) :
    0 < -satB v + Real.sqrt (satB v ^ 2 - 4 * satA v * satC v) := by
  have hB := satB_neg v h1 h2
  have hs := Real.sqrt_nonneg (satB v ^ 2 - 4 * satA v * satC v)
  linarith

theorem satBeta_lb (T : ℝ) (h1 : 280 ≤ T) (h2 : T ≤ 640) : 0.1573 ≤ satBeta T := by
  unfold satBeta
  obtain ⟨-, hv1, hv2⟩ := satV_mem T h1 h2
  set v := satV T
  have hC := satC_pos v hv1 hv2
  have hden := satDen_pos v hv1 hv2
  have hR0 : 0 ≤ 20000 / 1573 * satC v + satB v := by
    unfold satC satB satn2 satn3 satn4 satn5 satn6 satn7
    nlinarith [mul_nonneg (show (0:ℝ) ≤ v - 280 by linarith) (show (0:ℝ) ≤ v - 280 by linarith)]
  have hg : 0 ≤ (20000 / 1573) ^ 2 * satC v + 2 * (20000 / 1573) * satB v + 4 * satA v := by
    unfold satA satB satC satn0 satn1 satn2 satn3 satn4 satn5 satn6 satn7
    nlinarith [mul_nonneg (show (0:ℝ) ≤ v - 280 by linarith) (show (0:ℝ) ≤ v - 280 by linarith)]
  have hle : satB v ^ 2 - 4 * satA v * satC v ≤ (20000 / 1573 * satC v + satB v) ^ 2 := by
    nlinarith [mul_nonneg hC.le hg]
  have hs : Real.sqrt (satB v ^ 2 - 4 * satA v * satC v) ≤ 20000 / 1573 * satC v + satB v := by
    calc Real.sqrt (satB v ^ 2 - 4 * satA v * satC v)
        ≤ Real.sqrt ((20000 / 1573 * satC v + satB v) ^ 2) := Real.sqrt_le_sqrt hle
      _ = 20000 / 1573 * satC v + satB v := Real.sqrt_sq hR0
  rw [le_div_iff hden]
  linarith

theorem satBeta_ub (T : ℝ) (h1 : 280 ≤ T) (h2 : T ≤ 640) : satBeta T ≤ 68.5 := by
  unfold satBeta
  obtain ⟨-, hv1, hv2⟩ := satV_mem T h1 h2
  set v := satV T
  have hden := satDen_pos v hv1 hv2
  have hq : 2 * satC v + 68.5 * satB v ≤ 0 := by
    unfold satB satC satn2 satn3 satn4 satn5 satn6 satn7
    nlinarith [sq_nonneg (v - 357)]
  have hs := Real.sqrt_nonneg (satB v ^ 2 - 4 * satA v * satC v)
  rw [div_le_iff hden]
  linarith

theorem satBeta_pos (T : ℝ) (h1 : 280 ≤ T) (h2 : T ≤ 640) : 0 < satBeta T :=
  lt_of_lt_of_le (by norm_num) (satBeta_lb T h1 h2)

theorem satBeta_root (T : ℝ) (h1 : 280 ≤ T) (h2 : T ≤ 640) :
    satA (satV T) * satBeta T ^ 2 + satB (satV T) * satBeta T + satC (satV T) = 0 := by
  obtain ⟨-, hv1, hv2⟩ := satV_mem T h1 h2
  have hΔ := satDelta_pos (satV T) hv1 hv2
  have hden := satDen_pos (satV T) hv1 hv2
  have hs2 : Real.sqrt (satB (satV T) ^ 2 - 4 * satA (satV T) * satC (satV T)) ^ 2 =
      satB (satV T) ^ 2 - 4 * satA (satV T) * satC (satV T) := Real.sq_sqrt hΔ.le
  unfold satBeta
  set v := satV T
  set s := Real.sqrt (satB v ^ 2 - 4 * satA v * satC v)
  have hne : -satB v + s ≠ 0 := ne_of_gt hden
  have hkey : satA v * (2 * satC v) ^ 2 + satB v * (2 * satC v) * (-satB v + s) +
      satC v * (-satB v + s) ^ 2 = 0 := by
    linear_combination satC v * hs2
  have hexp : satA v * (2 * satC v / (-satB v + s)) ^ 2 +
      satB v * (2 * satC v / (-satB v + s)) + satC v =
      (satA v * (2 * satC v) ^ 2 + satB v * (2 * satC v) * (-satB v + s) +
        satC v * (-satB v + s) ^ 2) / (-satB v + s) ^ 2 := by
    field_simp
    ring
  rw [hexp, hkey, zero_div]

theorem satEFG_identity (b v : ℝ) :
    satE b * v ^ 2 + satF b * v + satG b = satA v * b ^ 2 + satB v * b + satC v := by
  unfold satE satF satG satA satB satC
  ring

theorem satEvF_pos (b v : ℝ) (hv1 : 280 ≤ v) (hv2 : v ≤ 641) :
    0 < 2 * satE b * v + satF b := by
  have hx : (0 : ℝ) ≤ v - 280 := by linarith
  have hy : (0 : ℝ) ≤ 641 - v := by linarith
  unfold satE satF satn0 satn2 satn3 satn5 satn6
  nlinarith [sq_nonneg (2 * (2 * v + 1167.0521452767) * b +
      (2 * (-17.073846940092) * v + 12020.82470247)),
    mul_nonneg hx hy, hx, hy,
    mul_nonneg (mul_nonneg hx hy) (sq_nonneg b)]

theorem satEvF2_pos (b v : ℝ) (hv1 : 280 ≤ v) (hv2 : v ≤ 641) (hb : 0.1573 ≤ b) :
    0 < satE b * v + satF b := by
  unfold satE satF satn0 satn2 satn3 satn5 satn6
  have hb0 : (0 : ℝ) ≤ b - 0.1573 := by linarith
  have hM : (0 : ℝ) ≤ -17.073846940092 * v + 12020.82470247 := by linarith
  have hVn : (0 : ℝ) ≤ v - 280 := by linarith
  nlinarith [sq_nonneg b, mul_nonneg (sq_nonneg b) hVn, mul_nonneg hb0 hM]

theorem satD_recovers (T : ℝ) (h1 : 280 ≤ T) (h2 : T ≤ 640) :
    satD (satBeta T) = satV T := by
  obtain ⟨-, hv1, hv2⟩ := satV_mem T h1 h2
  have hb := satBeta_lb T h1 h2
  have hEv : satE (satBeta T) * satV T ^ 2 + satF (satBeta T) * satV T +
      satG (satBeta T) = 0 := by
    rw [satEFG_identity]
    exact satBeta_root T h1 h2
  set b := satBeta T
  set v := satV T
  have hpos := satEvF_pos b v hv1 hv2
  have hpos2 := satEvF2_pos b v hv1 hv2 hb
  have hΔ : satF b ^ 2 - 4 * satE b * satG b = (2 * satE b * v + satF b) ^ 2 := by
    linear_combination (-4 * satE b) * hEv
  have hsqrt : Real.sqrt (satF b ^ 2 - 4 * satE b * satG b) = 2 * satE b * v + satF b := by
    rw [hΔ]
    exact Real.sqrt_sq hpos.le
  have hG : satG b = -(satE b * v ^ 2) - satF b * v := by linarith
  unfold satD
  rw [hsqrt, hG]
  have hne : -satF b - (2 * satE b * v + satF b) ≠ 0 := by
    intro hcon
    have : satE b * v + satF b = 0 := by linarith
    exact absurd this (ne_of_gt hpos2)
  rw [div_eq_iff hne]
  ring

theorem tsat_recovers (T : ℝ) (h1 : 280 ≤ T) (h2 : T ≤ 640) :
    tsatFromBeta (satBeta T) = T := by
  obtain ⟨hgt, hv1, hv2⟩ := satV_mem T h1 h2
  unfold tsatFromBeta
  rw [satD_recovers T h1 h2]
  have hTn9 : T < satn9 := by
    rw [satn9]
    linarith
  have hne9 : T - satn9 ≠ 0 := sub_ne_zero.2 (ne_of_lt hTn9)
  have hn8 : satn8 = (satV T - T) * (T - satn9) := by
    unfold satV
    field_simp
    ring
  have hsq : (satn9 + satV T) ^ 2 - 4 * (satn8 + satn9 * satV T) =
      (satn9 + satV T - 2 * T) ^ 2 := by
    linear_combination (-4 : ℝ) * hn8
  have hnn : 0 ≤ satn9 + satV T - 2 * T := by linarith
  rw [hsq, Real.sqrt_sq hnn]
  ring

/-- Claim C4: for every temperature in [280, 640] K the two fixed-coefficient
saturation equations are mutually inverse: `pressure_saturation` succeeds,
`temperature_saturation` of its result succeeds, and the recovered
temperature agrees with T within 1e-4 K (in the real-number embedding the
two closed forms are exact algebraic inverses, so the round-trip error is
zero). -/
theorem C4_saturation_roundtrip (T : ℝ) (h1 : 280 ≤ T) (h2 : T ≤ 640) :
    ∃ p Tback, pressure_saturation T = Except.ok p ∧
      temperature_saturation p = Except.ok Tback ∧ |Tback - T| ≤ 1e-4 := by
  have hβlb := satBeta_lb T h1 h2
  have hβub := satBeta_ub T h1 h2
  have hβ0 := satBeta_pos T h1 h2
  refine ⟨satBeta T ^ 4 * 1e6, T, ?_, ?_, by norm_num⟩
  · unfold pressure_saturation
    rw [if_neg]
    rintro (h | h)
    · linarith
    · rw [Tcrit] at h
      linarith
  · unfold temperature_saturation
    have hdiv : satBeta T ^ 4 * 1e6 / 1e6 = satBeta T ^ 4 := by
      field_simp
    rw [hdiv]
    have hlow : (611.213 / 1e6 : ℝ) ≤ satBeta T ^ 4 := by
      have h4 : (0.1573 : ℝ) ^ 4 ≤ satBeta T ^ 4 := pow_le_pow_left (by norm_num) hβlb 4
      nlinarith
    have hhigh : satBeta T ^ 4 ≤ pcrit := by
      have h4 : satBeta T ^ 4 ≤ (68.5 : ℝ) ^ 4 := pow_le_pow_left hβ0.le hβub 4
      rw [pcrit]
      nlinarith
    rw [if_neg]
    · have hr : (satBeta T ^ 4 : ℝ) ^ ((1 : ℝ) / 4) = satBeta T := by
        rw [← Real.rpow_natCast (satBeta T) 4, ← Real.rpow_mul hβ0.le]
        norm_num
      rw [hr, tsat_recovers T h1 h2]
    · rintro (h | h)
      · linarith
      · linarith

theorem C4_saturation_roundtrip_witness :
    ∃ p Tback, pressure_saturation 300 = Except.ok p ∧
      temperature_saturation p = Except.ok Tback ∧ |Tback - (300 : ℝ)| ≤ 1e-4 :=
  C4_saturation_roundtrip 300 (by norm_num) (by norm_num)

/-- Claim C10: determinism and absence of mutation: every evaluator result
depends only on the constructed fields of its inputs, so two identically
constructed water states (or compound records) give identical results for
every property method and for the region classification; the translated
method bodies contain no assignment to the state or to the shared
coefficient tables (the Python sources never write `self` or the tables). -/
theorem C10_determinism
    (s1 s2 : WaterState) (hp : s1.p = s2.p) (hT : s1.T = s2.T) (hR : s1.R = s2.R)
    (c1 c2 : Nasa9.Compound) (hi : c1.iupacName = c2.iupacName)
    (hn : c1.inpName = c2.inpName) (ht : c1.tRanges = c2.tRanges) (T : ℝ) :
    gibbs_energy s1 = gibbs_energy s2 ∧
    specific_volume s1 = specific_volume s2 ∧
    internal_energy s1 = internal_energy s2 ∧
    entropy s1 = entropy s2 ∧
    enthalpy s1 = enthalpy s2 ∧
    heat_capacity s1 = heat_capacity s2 ∧
    heat_capacity_constant_v s1 = heat_capacity_constant_v s2 ∧
    speed_of_sound s1 = speed_of_sound s2 ∧
    is_in_region s1.p s1.T = is_in_region s2.p s2.T ∧
    Nasa9.heat_capacity c1 T = Nasa9.heat_capacity c2 T ∧
    Nasa9.enthalpy c1 T = Nasa9.enthalpy c2 T ∧
    Nasa9.entropy c1 T = Nasa9.entropy c2 T ∧
    Nasa9.gibbs_energy c1 T = Nasa9.gibbs_energy c2 T := by
  obtain ⟨p1, T1, R1⟩ := s1
  obtain ⟨p2, T2, R2⟩ := s2
  obtain ⟨i1, n1, t1⟩ := c1
  obtain ⟨i2, n2, t2⟩ := c2
  simp only at hp hT hR hi hn ht
  subst hp
  subst hT
  subst hR
  subst hi
  subst hn
  subst ht
  exact ⟨rfl, rfl, rfl, rfl, rfl, rfl, rfl, rfl, rfl, rfl, rfl, rfl, rfl⟩

theorem C10_determinism_witness :
    gibbs_energy ⟨1e5, 300, Rgas⟩ = gibbs_energy ⟨1e5, 300, Rgas⟩ ∧
    specific_volume ⟨1e5, 300, Rgas⟩ = specific_volume ⟨1e5, 300, Rgas⟩ ∧
    internal_energy ⟨1e5, 300, Rgas⟩ = internal_energy ⟨1e5, 300, Rgas⟩ ∧
    entropy ⟨1e5, 300, Rgas⟩ = entropy ⟨1e5, 300, Rgas⟩ ∧
    enthalpy ⟨1e5, 300, Rgas⟩ = enthalpy ⟨1e5, 300, Rgas⟩ ∧
    heat_capacity ⟨1e5, 300, Rgas⟩ = heat_capacity ⟨1e5, 300, Rgas⟩ ∧
    heat_capacity_constant_v ⟨1e5, 300, Rgas⟩ = heat_capacity_constant_v ⟨1e5, 300, Rgas⟩ ∧
    speed_of_sound ⟨1e5, 300, Rgas⟩ = speed_of_sound ⟨1e5, 300, Rgas⟩ ∧
    is_in_region (WaterState.mk 1e5 300 Rgas).p (WaterState.mk 1e5 300 Rgas).T =
      is_in_region (WaterState.mk 1e5 300 Rgas).p (WaterState.mk 1e5 300 Rgas).T ∧
    Nasa9.heat_capacity Nasa9.c3w 300 = Nasa9.heat_capacity Nasa9.c3w 300 ∧
    Nasa9.enthalpy Nasa9.c3w 300 = Nasa9.enthalpy Nasa9.c3w 300 ∧
    Nasa9.entropy Nasa9.c3w 300 = Nasa9.entropy Nasa9.c3w 300 ∧
    Nasa9.gibbs_energy Nasa9.c3w 300 = Nasa9.gibbs_energy Nasa9.c3w 300 :=
  C10_determinism ⟨1e5, 300, Rgas⟩ ⟨1e5, 300, Rgas⟩ rfl rfl rfl
    Nasa9.c3w Nasa9.c3w rfl rfl rfl 300

end Iapws

end Thermopy
